import Mathlib

/-!
Verification of the Dr. HealBot stateless medical-consultation backend
(`src/app.py`) against its natural-language specification.

The Python source is shallowly embedded: each relevant function or endpoint
body is translated into an executable Lean definition.  External
collaborators (the statistical language detector, the recognition engine,
the filesystem, the clock) are passed in as explicit parameters or oracle
records, so that every control path of the source is a value of a total
Lean function.
-/

/-! ## Language detector (`detect_language`, src/app.py lines 348-357) -/

/-- Membership of a character in the Arabic Unicode script ranges tested by
the regex `[؀-ۿݐ-ݿࢠ-ࣿ]` in `detect_language`. -/
def isArabicChar (c : Char) : Bool :=
  (0x0600 ≤ c.toNat && c.toNat ≤ 0x06FF) ||
  (0x0750 ≤ c.toNat && c.toNat ≤ 0x077F) ||
  (0x08A0 ≤ c.toNat && c.toNat ≤ 0x08FF)

/-- Model of `arabic_pattern.search(text)`: some character of the text lies
in one of the three Arabic ranges. -/
def containsArabicChar (s : String) : Bool :=
  s.data.any isArabicChar

/-- Embedding of `detect_language` (src/app.py lines 348-357).  The external
statistical detector `langdetect.detect` is a parameter `det`; `det text =
none` models the statistical path raising an exception, which the source
catches and converts to the result `'en'`. -/
def detect_language (det : String → Option String) (text : String) : String :=
  if containsArabicChar text then "ar"
  else
    match det text with
    | some lang => if lang = "ar" then "ar" else "en"
    | none => "en"

/-! ## Claim C1 -/

/-- C1: for every input text `detect_language` returns a tag in {en, ar}
(it is a total function, so it never throws past its boundary); if the text
contains a character of the Arabic ranges it returns "ar" regardless of the
statistical detector; and when the statistical path fails (models the
`except` branch) it returns "en". -/
theorem C1_detect_language_spec (det : String → Option String) (text : String) :
    (detect_language det text = "en" ∨ detect_language det text = "ar")
    ∧ (containsArabicChar text = true → detect_language det text = "ar")
    ∧ (containsArabicChar text = false → det text = none →
        detect_language det text = "en") := by
  refine ⟨?_, fun hc => by simp [detect_language, hc], fun hc hd => by
    simp [detect_language, hc, hd]⟩
  cases hc : containsArabicChar text with
  | true => exact Or.inr (by simp [detect_language, hc])
  | false =>
    cases hd : det text with
    | none => exact Or.inl (by simp [detect_language, hc, hd])
    | some lang =>
      by_cases hl : lang = "ar"
      · exact Or.inr (by simp [detect_language, hc, hd, hl])
      · exact Or.inl (by simp [detect_language, hc, hd, hl])

/-- Witness for C1 at concrete inputs: a failing statistical detector on a
Latin-script text yields "en", and an Arabic-script text yields "ar" even
though the statistical detector fails. -/
theorem C1_detect_language_spec_witness :
    detect_language (fun _ => none) "salam" = "en"
    ∧ detect_language (fun _ => none) "مرحبا" = "ar" := by
  refine ⟨?_, ?_⟩
  · exact (C1_detect_language_spec (fun _ => none) "salam").2.2 (by decide) rfl
  · exact (C1_detect_language_spec (fun _ => none) "مرحبا").2.1 (by decide)

/-! ## Conversation assembler (`chat` endpoint, src/app.py lines 426-435) -/

/-- A caller-supplied chat turn (`ChatMessage` pydantic model): role is
"user" or "model" (any other string is tolerated). -/
structure ChatMessage where
  role : String
  text : String
deriving DecidableEq, Repr

/-- One entry of the `contents` list sent to the Gemini model: a role and a
list of text parts (the source always uses a single part). -/
structure GeminiContent where
  role : String
  parts : List String
deriving DecidableEq, Repr

/-- Role mapping applied to each history turn (src/app.py line 431):
`role = "user" if msg.role == "user" else "model"`. -/
def mapHistoryTurn (m : ChatMessage) : GeminiContent :=
  { role := if m.role = "user" then "user" else "model", parts := [m.text] }

/-- Model of Python `str.strip()`: drop leading and trailing whitespace.
Defined by structural recursion over the character list so that concrete
instances evaluate by `decide`. -/
def pyStrip (s : String) : String :=
  String.mk
    (((s.data.dropWhile Char.isWhitespace).reverse.dropWhile
        Char.isWhitespace).reverse)

/-- Embedding of the construction of `contents` in the `chat` endpoint
(src/app.py lines 426-435): system prompt as a leading user turn, then the
caller-supplied history in order with roles mapped, then the stripped new
message as a final user turn. -/
def buildContents (systemPrompt : String) (history : List ChatMessage)
    (message : String) : List GeminiContent :=
  { role := "user", parts := [systemPrompt] }
    :: (history.map mapHistoryTurn
        ++ [{ role := "user", parts := [pyStrip message] }])

/-! ## Claim C2 -/

/-- C2: the turn sequence sent to the model is exactly one leading user turn
carrying the system prompt, then every history turn in original order with
role mapped user→user / anything else→model, then the trimmed message as a
final user turn; the length equation rules out deduplication, truncation or
insertion, and the pointwise equation rules out reordering. -/
theorem C2_chat_contents_structure (sp : String) (history : List ChatMessage)
    (msg : String) :
    (buildContents sp history msg).length = history.length + 2
    ∧ (buildContents sp history msg).head?
        = some { role := "user", parts := [sp] }
    ∧ (buildContents sp history msg).getLast?
        = some { role := "user", parts := [pyStrip msg] }
    ∧ ∀ i (hi : i < history.length),
        (buildContents sp history msg)[i + 1]?
          = some (mapHistoryTurn (history.get ⟨i, hi⟩)) := by
  refine ⟨by simp [buildContents], rfl, ?_, ?_⟩
  · simp only [buildContents]
    rw [← List.cons_append]
    exact List.getLast?_concat _
  · intro i hi
    have hlen : i < (history.map mapHistoryTurn).length := by
      simpa using hi
    calc (buildContents sp history msg)[i + 1]?
        = (history.map mapHistoryTurn
            ++ [{ role := "user", parts := [pyStrip msg] }])[i]? := by
          simp [buildContents]
      _ = (history.map mapHistoryTurn)[i]? := List.getElem?_append_left hlen
      _ = some (mapHistoryTurn (history.get ⟨i, hi⟩)) := by
          simp [List.getElem?_map, List.getElem?_eq_getElem hi]

/-- Witness for C2 at a concrete request: system prompt "S", a two-turn
history whose second turn has the non-user role "assistant", and a message
with surrounding whitespace. -/
theorem C2_chat_contents_structure_witness :
    (buildContents "S" [⟨"user", "a"⟩, ⟨"assistant", "b"⟩] " hi ").length = 4
    ∧ (buildContents "S" [⟨"user", "a"⟩, ⟨"assistant", "b"⟩] " hi ").head?
        = some { role := "user", parts := ["S"] }
    ∧ (buildContents "S" [⟨"user", "a"⟩, ⟨"assistant", "b"⟩] " hi ").getLast?
        = some { role := "user", parts := [pyStrip " hi "] }
    ∧ (buildContents "S" [⟨"user", "a"⟩, ⟨"assistant", "b"⟩] " hi ")[1]?
        = some { role := "user", parts := ["a"] }
    ∧ (buildContents "S" [⟨"user", "a"⟩, ⟨"assistant", "b"⟩] " hi ")[2]?
        = some { role := "model", parts := ["b"] } := by
  obtain ⟨h1, h2, h3, h4⟩ :=
    C2_chat_contents_structure "S" [⟨"user", "a"⟩, ⟨"assistant", "b"⟩] " hi "
  have w1 := h4 0 (by decide)
  have w2 := h4 1 (by decide)
  refine ⟨h1, h2, h3, ?_, ?_⟩
  · simpa [mapHistoryTurn] using w1
  · simpa [mapHistoryTurn] using w2

/-! ## System prompt templates (src/app.py lines 178-346) -/

/-- Verbatim English base instruction template (src/app.py lines 178-261). -/
def DOCTOR_SYSTEM_PROMPT_EN : String :=
  "\n"
  ++ "You are Dr. HealBot, a calm, knowledgeable, and empathetic virtual doctor who can communicate in both English and Arabic.\n"
  ++ "\n"
  ++ "CRITICAL LANGUAGE RULE:\n"
  ++ "ALWAYS respond in the SAME LANGUAGE the user is speaking.\n"
  ++ "If the user writes in English, respond ONLY in English.\n"
  ++ "If the user writes in Arabic, respond ONLY in Arabic.\n"
  ++ "NEVER mix languages in a single response.\n"
  ++ "\n"
  ++ "CRITICAL CONVERSATION CONTINUITY RULE:\n"
  ++ "- You have access to the FULL conversation history. ALWAYS remember what the patient told you earlier.\n"
  ++ "- If the patient mentioned symptoms before, remember them and continue from that point.\n"
  ++ "- If the patient returns with greetings (\"hi\", \"hey\", \"hello\"), acknowledge previous symptoms:\n"
  ++ "  Example: \"Welcome back! Last time you mentioned having fever. How is it now?\"\n"
  ++ "- NEVER ask again about symptoms they already told you unless asking for an update.\n"
  ++ "- Build on previous medical information logically.\n"
  ++ "\n"
  ++ "GOAL:\n"
  ++ "Hold a natural and focused medical conversation to understand the patient\u0027s health issue and provide helpful, preliminary medical guidance.\n"
  ++ "\n"
  ++ "INSTRUCTOR MODE:\n"
  ++ "If the user asks a general medical question (e.g., \"What is diabetes?\"), switch to clear, structured teaching mode.\n"
  ++ "\n"
  ++ "DOCTOR MODE:\n"
  ++ "If the user describes symptoms, ask short, relevant medical questions to narrow possible causes.\n"
  ++ "\n"
  ++ "SAFE MEDICATION RULE:\n"
  ++ "You may recommend only safe, common over-the-counter (OTC) medications such as:\n"
  ++ "- Paracetamol (acetaminophen)\n"
  ++ "- Ibuprofen\n"
  ++ "- Antihistamines\n"
  ++ "- Oral rehydration salts\n"
  ++ "\n"
  ++ "Medication Safety Guidelines:\n"
  ++ "- Always mention typical safe dosing ranges.\n"
  ++ "- Always warn who should avoid the medication (pregnancy, ulcers, kidney/liver disease, allergies, children, etc.).\n"
  ++ "- Never recommend prescription-only medications.\n"
  ++ "- Present medication as supportive, NOT a guaranteed cure.\n"
  ++ "\n"
  ++ "RESTRICTIONS:\n"
  ++ "You must ONLY talk about health, medical, biological, or wellness-related topics.\n"
  ++ "If the user asks anything non-medical, politely respond:\n"
  ++ "\"I\u0027m a medical consultation assistant and can only help with health or medical-related concerns.\"\n"
  ++ "\n"
  ++ "CONVERSATION LOGIC:\n"
  ++ "- Ask only one clear medical question per turn.\n"
  ++ "- Stop asking when enough information is collected.\n"
  ++ "- Then give a structured final assessment.\n"
  ++ "\n"
  ++ "FINAL RESPONSE FORMAT (English):\n"
  ++ "\n"
  ++ "Based on what you\u0027ve told me:\n"
  ++ "Short summary of the symptoms.\n"
  ++ "\n"
  ++ "Possible Causes (Preliminary):\n"
  ++ "- 1–2 possible conditions using soft language (\"It could be\", \"This sounds like\").\n"
  ++ "- Clarify this is NOT a confirmed diagnosis.\n"
  ++ "\n"
  ++ "Suggested OTC Medications (If Appropriate):\n"
  ++ "- 1–2 OTC options with safety instructions.\n"
  ++ "- Clarify who should avoid them.\n"
  ++ "\n"
  ++ "Lifestyle and Home Care Tips:\n"
  ++ "2–3 practical tips.\n"
  ++ "\n"
  ++ "When to See a Real Doctor:\n"
  ++ "Warning signs requiring urgent medical care.\n"
  ++ "\n"
  ++ "Follow Up Advice:\n"
  ++ "Short guidance on when to seek further evaluation.\n"
  ++ "\n"
  ++ "TONE AND STYLE:\n"
  ++ "- Warm, calm, caring, clear.\n"
  ++ "- Short sentences.\n"
  ++ "- No jargon.\n"
  ++ "- One question at a time.\n"
  ++ "- Final assessment in structured format.\n"
  ++ "\n"
  ++ "IMPORTANT:\n"
  ++ "- Always match the user\u0027s language.\n"
  ++ "- This is preliminary guidance, not a replacement for medical care.\n"
  ++ "- Never make a definitive diagnosis.\n"
  ++ "- Recommend urgent care if symptoms seem serious.\n"

/-- Verbatim Arabic base instruction template (src/app.py lines 263-346). -/
def DOCTOR_SYSTEM_PROMPT_AR : String :=
  "\n"
  ++ "أنت الدكتور هيل بوت، طبيب افتراضي هادئ وواسع المعرفة ومتعاطف.\n"
  ++ "\n"
  ++ "قانون اللغة الأساسي:\n"
  ++ "يجب عليك دائمًا الرد بنفس لغة المستخدم.\n"
  ++ "إذا كتب المستخدم بالعربية، يجب الرد بالعربية فقط.\n"
  ++ "وإذا كتب بالإنجليزية، يجب الرد بالإنجليزية فقط.\n"
  ++ "لا يجوز خلط اللغتين في رد واحد.\n"
  ++ "\n"
  ++ "قانون استمرارية المحادثة:\n"
  ++ "- لديك إمكانية الوصول إلى كامل سجل المحادثة. يجب عليك تذكر ما قاله المريض سابقًا.\n"
  ++ "- إذا ذكر المريض أعراضًا سابقًا، تذكرها واستمر منها.\n"
  ++ "- إذا عاد المريض وقال \"مرحبا\" أو \"هاي\"، يجب الترحيب به مع ذكر الأعراض السابقة:\n"
  ++ "  مثال: \"مرحبًا بعودتك! في المرة السابقة ذكرت أنك تعاني من الحمى. كيف حالها الآن؟\"\n"
  ++ "- لا تسأل مرة أخرى عن أعراض سبق أن قدمها المستخدم إلا لغرض المتابعة أو التحديث.\n"
  ++ "- ابنِ ردودك على المعلومات السابقة بشكل منطقي.\n"
  ++ "\n"
  ++ "الهدف:\n"
  ++ "إجراء محادثة طبية طبيعية ومركزة لفهم المشكلة الصحية وتقديم إرشادات طبية أولية مفيدة.\n"
  ++ "\n"
  ++ "وضع المدرس:\n"
  ++ "إذا كان السؤال عامًا (مثل: \"ما هو السكري؟\")، انتقل إلى شرح طبي واضح ومُنظم.\n"
  ++ "\n"
  ++ "وضع الطبيب:\n"
  ++ "إذا وصف المستخدم أعراضًا، اطرح أسئلة قصيرة ومرتبطة لتوضيح الحالة.\n"
  ++ "\n"
  ++ "قانون الأدوية الآمنة:\n"
  ++ "يمكنك اقتراح أدوية آمنة تُصرف بدون وصفة طبية (OTC) فقط، مثل:\n"
  ++ "- باراسيتامول\n"
  ++ "- آيبوبروفين\n"
  ++ "- مضادات الحساسية\n"
  ++ "- محاليل الإماهة الفموية\n"
  ++ "\n"
  ++ "إرشادات سلامة الدواء:\n"
  ++ "- اذكر جرعات عامة وآمنة.\n"
  ++ "- حذّر من الحالات التي يتجنب فيها الدواء (الحمل، أمراض الكبد/الكلى، القرحة، التحسس، الأطفال، إلخ).\n"
  ++ "- لا تُوصِ أبدًا بأدوية تتطلب وصفة طبية.\n"
  ++ "- قدم الدواء كخيار مساعد وليس كعلاج نهائي.\n"
  ++ "\n"
  ++ "القيود:\n"
  ++ "يجب أن تكون جميع المعلومات طبية أو صحية فقط.\n"
  ++ "إذا طرح المستخدم سؤالًا غير طبي، أجب:\n"
  ++ "\"أنا مساعد استشارات طبية ويمكنني المساعدة فقط في المخاوف الصحية أو الطبية.\"\n"
  ++ "\n"
  ++ "منطق المحادثة:\n"
  ++ "- اسأل سؤالًا واحدًا فقط في كل مرة.\n"
  ++ "- توقف عن الأسئلة عندما تكون المعلومات كافية.\n"
  ++ "- بعدها قدم تقييمًا طبيًا منظمًا.\n"
  ++ "\n"
  ++ "صيغة التقييم النهائي (عربي):\n"
  ++ "\n"
  ++ "بناءً على ما أخبرتني به:\n"
  ++ "ملخص قصير للأعراض.\n"
  ++ "\n"
  ++ "الأسباب المحتملة (أولية):\n"
  ++ "- ذكر 1–2 احتمالات باستخدام عبارات مثل \"قد يكون\" أو \"يبدو هذا مثل\".\n"
  ++ "- التأكيد أن هذا ليس تشخيصًا نهائيًا.\n"
  ++ "\n"
  ++ "الأدوية المقترحة (بدون وصفة طبية):\n"
  ++ "- اقتراح دواء أو دواءين مناسبين.\n"
  ++ "- توضيح التحذيرات والفئات التي يجب أن تتجنب استخدامه.\n"
  ++ "\n"
  ++ "نصائح نمط الحياة والرعاية المنزلية:\n"
  ++ "2–3 نصائح عملية.\n"
  ++ "\n"
  ++ "متى يجب زيارة طبيب حقيقي:\n"
  ++ "علامات أو أعراض تستدعي رعاية عاجلة.\n"
  ++ "\n"
  ++ "نصائح المتابعة:\n"
  ++ "توصية قصيرة لموعد أو طريقة المتابعة.\n"
  ++ "\n"
  ++ "النبرة والأسلوب:\n"
  ++ "- نبرة دافئة، هادئة، متعاطفة.\n"
  ++ "- جمل قصيرة وواضحة.\n"
  ++ "- بدون مصطلحات معقدة.\n"
  ++ "- سؤال واحد فقط في كل رد.\n"
  ++ "- التقييم النهائي بصياغة منظمة.\n"
  ++ "\n"
  ++ "مهم:\n"
  ++ "- دائمًا استخدم لغة المستخدم.\n"
  ++ "- هذا إرشاد أولي وليس بديلاً عن الرعاية الطبية.\n"
  ++ "- لا تقدّم تشخيصًا نهائيًا.\n"
  ++ "- أوصِ بالرعاية العاجلة إذا بدت الأعراض خطيرة.\n"

/-! ## Patient history formatting (`format_patient_history`, src/app.py
lines 96-175) -/

/-- The `personal_info` sub-dictionary of a patient record; each field
defaults to "N/A" via `dict.get` when absent. -/
structure PersonalInfo where
  name : Option String
  age : Option String
  gender : Option String
deriving DecidableEq, Repr

/-- A patient record as consumed by `format_patient_history`.  Each list
field models the corresponding optional JSON list; a missing key and an
empty list are indistinguishable under the truthiness guards in the source
(`if patient_data.get("medical_history"):` etc.), so both are modelled by
`[]`.  Vital signs are the ordered key/value pairs of the
`vital_signs` dictionary. -/
structure PatientData where
  personal_info : Option PersonalInfo
  medical_history : List String
  medications : List String
  allergies : List String
  previous_visits : List String
  vital_signs : List (String × String)
deriving DecidableEq, Repr

/-- The separator `"=" * 50` used by `format_patient_history`. -/
def sepLine : String :=
  String.mk (List.replicate 50 '=')

/-- One bullet line per item, in list order: models the source loops
`for x in ...: context += pre + x + "\n"`. -/
def bulletLines (pre : String) : List String → String
  | [] => ""
  | x :: xs => pre ++ x ++ "\n" ++ bulletLines pre xs

/-- Key/value lines of the vital-signs loop (src/app.py lines 166-167). -/
def vitalLines : List (String × String) → String
  | [] => ""
  | (k, v) :: xs => "   • " ++ k ++ ": " ++ v ++ "\n" ++ vitalLines xs

/-- Python slice `l[-n:]` for `n > 0`: the most recent `n` entries. -/
def lastSlice (n : Nat) (l : List α) : List α :=
  l.drop (l.length - n)

/-- One optional list section of the patient block: emitted only when the
source list is truthy (non-empty), as a header line followed by one bullet
line per item. -/
def listSection (hdr pre : String) (items : List String) : String :=
  if items.isEmpty then "" else hdr ++ bulletLines pre items

/-- The optional vital-signs section (src/app.py lines 163-167), English
branch only. -/
def vitalsSection (items : List (String × String)) : String :=
  if items.isEmpty then "" else
    "\n📊 LAST RECORDED VITALS:\n" ++ vitalLines items

/-- The personal-info lines of the English branch (src/app.py lines
137-141); empty when `personal_info` is absent. -/
def personalLinesEn : Option PersonalInfo → String
  | some info =>
    "👤 Name: " ++ info.name.getD "N/A" ++ "\n"
    ++ "📅 Age: " ++ info.age.getD "N/A" ++ "\n"
    ++ "⚧ Gender: " ++ info.gender.getD "N/A" ++ "\n"
  | none => ""

/-- The personal-info lines of the Arabic branch (src/app.py lines
106-110); empty when `personal_info` is absent. -/
def personalLinesAr : Option PersonalInfo → String
  | some info =>
    "👤 الاسم: " ++ info.name.getD "N/A" ++ "\n"
    ++ "📅 العمر: " ++ info.age.getD "N/A" ++ "\n"
    ++ "⚧ الجنس: " ++ info.gender.getD "N/A" ++ "\n"
  | none => ""

/-- The Arabic header of the patient block (src/app.py lines 102-104). -/
def arHeaderBlock : String :=
  "\n\n" ++ sepLine ++ "\n"
  ++ "⚠️ معلومات المريض المهمة - يجب مراعاتها في كل رد:\n"
  ++ sepLine ++ "\n"

/-- The English header of the patient block (src/app.py lines 133-135). -/
def enHeaderBlock : String :=
  "\n\n" ++ sepLine ++ "\n"
  ++ "⚠️ IMPORTANT PATIENT INFORMATION - Consider in EVERY response:\n"
  ++ sepLine ++ "\n"

/-- The closing reminder block appended for both languages (src/app.py
lines 169-174). -/
def patientBlockFooter : String :=
  "\n" ++ sepLine ++ "\n"
  ++ "⚠️ INSTRUCTIONS: Always consider this patient's history when giving advice.\n"
  ++ "   - Check allergies before recommending any medication\n"
  ++ "   - Consider existing conditions and current medications\n"
  ++ "   - Reference their history when relevant to build trust\n"
  ++ sepLine ++ "\n"

/-- Embedding of `format_patient_history` (src/app.py lines 96-175) for a
truthy patient record (the `if not patient_data: return ""` early exit is
represented by the caller passing `none` at the composition level, matching
the guard `if request.patient_data:` in the `chat` endpoint).  The Arabic
branch emits header, personal info, medical history, medications,
allergies, and the last 3 visits; the English branch additionally emits
vital signs and takes the last 5 visits; both end with the same English
closing reminder block. -/
def formatPatientHistory (pd : PatientData) (language : String) : String :=
  (if language = "ar" then
    arHeaderBlock
    ++ personalLinesAr pd.personal_info
    ++ listSection "\n📋 التاريخ الطبي:\n" "• " pd.medical_history
    ++ listSection "\n💊 الأدوية الحالية:\n" "• " pd.medications
    ++ listSection "\n⚠️ الحساسيات:\n" "• " pd.allergies
    ++ listSection "\n📅 الزيارات السابقة:\n" "• "
        (lastSlice 3 pd.previous_visits)
  else
    enHeaderBlock
    ++ personalLinesEn pd.personal_info
    ++ listSection "\n🏥 KNOWN MEDICAL CONDITIONS (CRITICAL):\n" "   • "
        pd.medical_history
    ++ listSection "\n💊 CURRENT MEDICATIONS (Check for interactions):\n"
        "   • " pd.medications
    ++ listSection "\n🚨 ALLERGIES (NEVER recommend these):\n" "   • "
        pd.allergies
    ++ listSection "\n📋 RECENT VISIT HISTORY:\n" "   • "
        (lastSlice 5 pd.previous_visits)
    ++ vitalsSection pd.vital_signs)
  ++ patientBlockFooter

/-! ## Biomarker context (`format_biomarker_context`, src/app.py lines
368-390) -/

/-- The `executive_summary` field of a biomarker report. -/
structure ExecutiveSummary where
  top_priorities : List String
deriving DecidableEq, Repr

/-- A biomarker report as consumed by `format_biomarker_context`. -/
structure BiomarkerReport where
  executive_summary : Option ExecutiveSummary
deriving DecidableEq, Repr

/-- Numbered lines starting at `i`: models
`for i, priority in enumerate(summary["top_priorities"], 1)`. -/
def numberedLines (i : Nat) : List String → String
  | [] => ""
  | x :: xs => toString i ++ ". " ++ x ++ "\n" ++ numberedLines (i + 1) xs

/-- Embedding of `format_biomarker_context` (src/app.py lines 368-390) for
a truthy report (the `if not report: return ""` early exit is represented
by the caller passing `none`, matching `if biomarker_report:` in `chat`). -/
def format_biomarker_context (report : BiomarkerReport)
    (language : String) : String :=
  if language = "ar" then
    "\n\n📊 معلومات تقرير المختبر:\n"
    ++ (match report.executive_summary with
        | some s =>
          if s.top_priorities.isEmpty then "" else
            "🎯 الأولويات الصحية الرئيسية:\n" ++ numberedLines 1 s.top_priorities
        | none => "")
  else
    "\n\n📊 LAB REPORT INFORMATION:\n"
    ++ (match report.executive_summary with
        | some s =>
          if s.top_priorities.isEmpty then "" else
            "🎯 Top Health Priorities:\n" ++ numberedLines 1 s.top_priorities
        | none => "")

/-! ## System prompt composition (`chat` endpoint, src/app.py lines
406-423) -/

/-- Base template selection (src/app.py line 407). -/
def baseTemplate (lang : String) : String :=
  if lang = "ar" then DOCTOR_SYSTEM_PROMPT_AR else DOCTOR_SYSTEM_PROMPT_EN

/-- Embedding of the system-prompt build-up in the `chat` endpoint
(src/app.py lines 406-423): start from the language-selected base
template, append the patient block when a truthy patient record is present,
then append the biomarker block when a truthy biomarker report is
available. -/
def composeSystemPrompt (lang : String) (patient : Option PatientData)
    (bio : Option BiomarkerReport) : String :=
  let withPatient :=
    match patient with
    | some pd => baseTemplate lang ++ formatPatientHistory pd lang
    | none => baseTemplate lang
  match bio with
  | some r => withPatient ++ format_biomarker_context r lang
  | none => withPatient

/-! ## Claim C3 -/

/-- C3: system-prompt composition is append-only in fixed order: the result
is always the base template followed by the patient block (empty when no
record) followed by the biomarker block (empty when no report); adding a
biomarker report appends to the prompt built without it, and adding a
patient record appends to the bare base template, so earlier content is
never replaced, removed or reordered. -/
theorem C3_compose_system_prompt_append_only (lang : String)
    (p : Option PatientData) (b : Option BiomarkerReport) :
    composeSystemPrompt lang p b
      = baseTemplate lang
        ++ (match p with
            | some pd => formatPatientHistory pd lang
            | none => "")
        ++ (match b with
            | some r => format_biomarker_context r lang
            | none => "")
    ∧ composeSystemPrompt lang p b
      = composeSystemPrompt lang p none
        ++ (match b with
            | some r => format_biomarker_context r lang
            | none => "")
    ∧ composeSystemPrompt lang p none
      = composeSystemPrompt lang none none
        ++ (match p with
            | some pd => formatPatientHistory pd lang
            | none => "") := by
  cases p <;> cases b <;>
    simp [composeSystemPrompt, String.append_empty, String.append_assoc]

/-! ## Substring occurrence -/

/-- `StrInfix a b` means the string `a` occurs contiguously inside `b`. -/
def StrInfix (a b : String) : Prop :=
  a.data <:+: b.data

instance (a b : String) : Decidable (StrInfix a b) :=
  List.decidableInfix a.data b.data

/-- Every string occurs in itself. -/
theorem strInfix_refl (a : String) : StrInfix a a :=
  List.infix_rfl

/-- An occurrence survives appending on the right. -/
theorem StrInfix.of_left {a b c : String} (h : StrInfix a b) :
    StrInfix a (b ++ c) := by
  obtain ⟨s, t, hst⟩ := h
  exact ⟨s, t ++ c.data, by rw [String.data_append, ← hst]; simp⟩

/-- An occurrence survives appending on the left. -/
theorem StrInfix.of_right {a b c : String} (h : StrInfix a c) :
    StrInfix a (b ++ c) := by
  obtain ⟨s, t, hst⟩ := h
  exact ⟨b.data ++ s, t, by rw [String.data_append, ← hst]; simp⟩

/-- The full bullet list occurs in its optional section. -/
theorem strInfix_listSection (hdr pre : String) (l : List String) :
    StrInfix (bulletLines pre l) (listSection hdr pre l) := by
  by_cases hl : l.isEmpty
  · have hnil : l = [] := by simpa using hl
    subst hnil
    simp [listSection, bulletLines, StrInfix]
  · simp only [listSection, if_neg hl]
    exact (strInfix_refl _).of_right

/-- The full vital-signs line list occurs in its optional section. -/
theorem strInfix_vitalsSection (l : List (String × String)) :
    StrInfix (vitalLines l) (vitalsSection l) := by
  by_cases hl : l.isEmpty
  · have hnil : l = [] := by simpa using hl
    subst hnil
    simp [vitalsSection, vitalLines, StrInfix]
  · simp only [vitalsSection, if_neg hl]
    exact (strInfix_refl _).of_right

/-! ## Claim C5 (amended) -/

/-- C5 (amended): the patient block covers — as verbatim contiguous
occurrences — the personal-info lines, the full medical-history, medication
and allergy bullet lists, the most recent 5 visits for English and the most
recent 3 visits for Arabic, and the vital-sign key/value lines for English
only: the Arabic branch of `format_patient_history` emits no vital-signs
section. -/
theorem C5_patient_block_coverage (pd : PatientData) :
    (StrInfix (personalLinesEn pd.personal_info)
        (formatPatientHistory pd "en")
      ∧ StrInfix (bulletLines "   • " pd.medical_history)
        (formatPatientHistory pd "en")
      ∧ StrInfix (bulletLines "   • " pd.medications)
        (formatPatientHistory pd "en")
      ∧ StrInfix (bulletLines "   • " pd.allergies)
        (formatPatientHistory pd "en")
      ∧ StrInfix (bulletLines "   • " (lastSlice 5 pd.previous_visits))
        (formatPatientHistory pd "en")
      ∧ StrInfix (vitalLines pd.vital_signs)
        (formatPatientHistory pd "en"))
    ∧ (StrInfix (personalLinesAr pd.personal_info)
        (formatPatientHistory pd "ar")
      ∧ StrInfix (bulletLines "• " pd.medical_history)
        (formatPatientHistory pd "ar")
      ∧ StrInfix (bulletLines "• " pd.medications)
        (formatPatientHistory pd "ar")
      ∧ StrInfix (bulletLines "• " pd.allergies)
        (formatPatientHistory pd "ar")
      ∧ StrInfix (bulletLines "• " (lastSlice 3 pd.previous_visits))
        (formatPatientHistory pd "ar")) := by
  have hen : formatPatientHistory pd "en"
      = (enHeaderBlock
        ++ personalLinesEn pd.personal_info
        ++ listSection "\n🏥 KNOWN MEDICAL CONDITIONS (CRITICAL):\n" "   • "
            pd.medical_history
        ++ listSection "\n💊 CURRENT MEDICATIONS (Check for interactions):\n"
            "   • " pd.medications
        ++ listSection "\n🚨 ALLERGIES (NEVER recommend these):\n" "   • "
            pd.allergies
        ++ listSection "\n📋 RECENT VISIT HISTORY:\n" "   • "
            (lastSlice 5 pd.previous_visits)
        ++ vitalsSection pd.vital_signs)
        ++ patientBlockFooter := rfl
  have har : formatPatientHistory pd "ar"
      = (arHeaderBlock
        ++ personalLinesAr pd.personal_info
        ++ listSection "\n📋 التاريخ الطبي:\n" "• " pd.medical_history
        ++ listSection "\n💊 الأدوية الحالية:\n" "• " pd.medications
        ++ listSection "\n⚠️ الحساسيات:\n" "• " pd.allergies
        ++ listSection "\n📅 الزيارات السابقة:\n" "• "
            (lastSlice 3 pd.previous_visits))
        ++ patientBlockFooter := rfl
  rw [hen, har]
  refine ⟨⟨?_, ?_, ?_, ?_, ?_, ?_⟩, ?_, ?_, ?_, ?_, ?_⟩
  · exact (strInfix_refl
      _).of_right.of_left.of_left.of_left.of_left.of_left.of_left
  · exact (strInfix_listSection _ _
      _).of_right.of_left.of_left.of_left.of_left.of_left
  · exact (strInfix_listSection _ _ _).of_right.of_left.of_left.of_left.of_left
  · exact (strInfix_listSection _ _ _).of_right.of_left.of_left.of_left
  · exact (strInfix_listSection _ _ _).of_right.of_left.of_left
  · exact (strInfix_vitalsSection _).of_right.of_left
  · exact (strInfix_refl _).of_right.of_left.of_left.of_left.of_left.of_left
  · exact (strInfix_listSection _ _ _).of_right.of_left.of_left.of_left.of_left
  · exact (strInfix_listSection _ _ _).of_right.of_left.of_left.of_left
  · exact (strInfix_listSection _ _ _).of_right.of_left.of_left
  · exact (strInfix_listSection _ _ _).of_right.of_left

/-- A patient record whose only content is one vital sign. -/
def pdVitalsOnly : PatientData :=
  { personal_info := none, medical_history := [], medications := [],
    allergies := [], previous_visits := [],
    vital_signs := [("Blood Pressure", "120/80")] }

set_option maxRecDepth 16384 in
/-- Counterexample to C5 as stated: for an Arabic-language patient block,
the recorded vital sign value "120/80" occurs nowhere in the output —
indeed the Arabic output does not depend on the vital signs at all. -/
theorem C5_counterexample_ar_vitals_missing :
    pdVitalsOnly.vital_signs = [("Blood Pressure", "120/80")]
    ∧ ¬ StrInfix "120/80" (formatPatientHistory pdVitalsOnly "ar")
    ∧ formatPatientHistory pdVitalsOnly "ar"
        = formatPatientHistory { pdVitalsOnly with vital_signs := [] } "ar" := by
  refine ⟨rfl, by decide, rfl⟩

/-! ## Text-to-speech language resolution (`text_to_speech`, src/app.py
lines 657-674) -/

/-- Helper: detect_language returns "ar" whenever the text contains an
Arabic-script character (shared by several developments below). -/
theorem detect_language_arabic (det : String → Option String) (text : String)
    (h : containsArabicChar text = true) :
    detect_language det text = "ar" := by
  simp [detect_language, h]

/-- Model of the narrower double-check regex `[؀-ۿ]` on src/app.py line
668: it tests only the basic Arabic range U+0600-U+06FF, not the two
supplementary ranges used by `detect_language`. -/
def containsArabicBasicChar (s : String) : Bool :=
  s.data.any (fun c => 0x0600 ≤ c.toNat && c.toNat ≤ 0x06FF)

/-- Embedding of the language-resolution prefix of `text_to_speech`
(src/app.py lines 661-669): explicit "en"/"ar" is taken as is, any other
non-"auto" value falls back to "en", "auto" runs `detect_language`; then
the double-check forces "ar" only when the basic Arabic range is present.
The result is both the synthesis language and the `X-Language` response
header. -/
def tts_resolve_language (det : String → Option String)
    (language_code : String) (text : String) : String :=
  let detected :=
    if language_code = "auto" then detect_language det text
    else if language_code = "en" ∨ language_code = "ar" then language_code
    else "en"
  if containsArabicBasicChar text then "ar" else detected

/-- Default edge-tts voice table (src/app.py lines 47-50) read through
`EDGE_TTS_VOICES.get(detected_lang, EDGE_TTS_VOICES["en"])`. -/
def defaultVoice (detected : String) : String :=
  if detected = "en" then "en-US-AriaNeural"
  else if detected = "ar" then "ar-SA-ZariyahNeural"
  else "en-US-AriaNeural"

/-- Voice resolution (src/app.py line 672): a truthy caller-supplied voice
wins, otherwise the per-language default (an empty string is falsy in the
source and is modelled like an absent voice). -/
def tts_voice (voice : Option String) (detected : String) : String :=
  match voice with
  | some v => if v = "" then defaultVoice detected else v
  | none => defaultVoice detected

/-! ## Claim C4 -/

/-- Counterexample to C4 as stated: the character U+0750 is an
Arabic-script character under the spec's three ranges, yet a TTS request
for that text with an explicitly requested "en" resolves to "en": the
hard override only scans U+0600-U+06FF. -/
theorem C4_counterexample_supplementary_arabic :
    isArabicChar 'ݐ' = true
    ∧ tts_resolve_language (fun _ => none) "en" "ݐ" = "en" := by
  decide

/-- C4 (amended): the hard override guarantees resolved language "ar"
whenever the text contains a character of the basic Arabic range
U+0600-U+06FF, even when "en" was explicitly requested; for "auto"
requests the full three-range script test applies.  Characters only in the
supplementary ranges do not trigger the override under an explicit
language tag. -/
theorem C4_tts_arabic_override (det : String → Option String)
    (language_code text : String) :
    (containsArabicBasicChar text = true →
      tts_resolve_language det language_code text = "ar")
    ∧ (language_code = "auto" → containsArabicChar text = true →
      tts_resolve_language det language_code text = "ar") := by
  constructor
  · intro h
    simp [tts_resolve_language, h]
  · intro hlc h
    subst hlc
    by_cases hb : containsArabicBasicChar text
    · simp [tts_resolve_language, hb]
    · simp [tts_resolve_language, hb, detect_language_arabic det text h]

/-- Witness for the amended C4: Arabic text under an explicit "en" request
resolves to "ar", and a supplementary-range character under "auto" also
resolves to "ar". -/
theorem C4_tts_arabic_override_witness :
    tts_resolve_language (fun _ => none) "en" "مرحبا" = "ar"
    ∧ tts_resolve_language (fun _ => none) "auto" "ݐ" = "ar" := by
  refine ⟨?_, ?_⟩
  · exact (C4_tts_arabic_override (fun _ => none) "en" "مرحبا").1 (by decide)
  · exact (C4_tts_arabic_override (fun _ => none) "auto" "ݐ").2 rfl (by decide)

/-! ## Speech-to-text endpoint (`speech_to_text`, src/app.py lines
589-652) -/

/-- Outcome of the bounded ffmpeg subprocess (src/app.py lines 608-611). -/
inductive ConvOutcome
  | ok
  | fail
  | timeout
deriving DecidableEq, Repr

/-- Oracle fixing the behaviour of every external effect of one STT
request: whether reading/writing the upload succeeds, the transcoder
outcome (and whether a partial output file was left behind on a
non-success), whether `wave.open` succeeds, the WAV header fields, whether
the recognition loop succeeds, and the raw final transcript text. -/
structure SttOracle where
  readOk : Bool
  conv : ConvOutcome
  wavCreatedOnFailure : Bool
  wavOpenOk : Bool
  wavChannels : Nat
  wavSampWidth : Nat
  recogOk : Bool
  rawText : String
deriving DecidableEq, Repr

/-- The JSON response of the STT endpoint: either a transcript result or
an error body with its HTTP status code.  Error payload strings for
unforeseen exceptions (`str(e)`) are abstracted by short fixed tags. -/
inductive SttOutcome
  | result (transcript : String) (detected_language : String) (status : String)
  | error (message : String) (code : Nat)
deriving DecidableEq, Repr

/-- Result of one run of the STT handler: the response, plus whether the
raw upload temp file and the transcoded WAV temp file are still on disk
after the handler returns. -/
structure SttRun where
  response : SttOutcome
  rawLeft : Bool
  wavLeft : Bool
deriving DecidableEq, Repr

/-- The `finally` block (src/app.py lines 646-652): each of the two files
is removed when its path variable was assigned and the file exists
(removal itself is assumed to succeed; the source swallows removal
errors).  A file is left behind exactly when it exists but its path
variable is still `None`. -/
def sttCleanup (rawPathSet rawExists wavPathSet wavExists : Bool) :
    Bool × Bool :=
  (rawExists && !rawPathSet, wavExists && !wavPathSet)

/-- Language echo of the STT endpoint (src/app.py line 621):
`language if language != "auto" else "en"`. -/
def stt_detected_language (language : String) : String :=
  if language = "auto" then "en" else language

/-- The two pre-loaded Vosk models. -/
inductive VoskModel
  | en
  | ar
deriving DecidableEq, Repr

/-- Model selection (src/app.py line 622): the Arabic model only when the
echoed language is "ar", otherwise the English model. -/
def stt_model (language : String) : VoskModel :=
  if stt_detected_language language = "ar" then VoskModel.ar else VoskModel.en

/-- Embedding of the `speech_to_text` handler (src/app.py lines 589-652)
as a straight-line function of the request oracle.  The raw temp file is
created on disk by `NamedTemporaryFile` before `file.read()` runs, but
`tmp_input_path` is assigned only after the write completes, so an
exception inside the `with` block reaches the `finally` block with the
path variable still `None`. -/
def speech_to_text (sttAvailable : Bool) (language : String)
    (o : SttOracle) : SttRun :=
  if !sttAvailable then
    { response := SttOutcome.error
        "Speech-to-text not available. Vosk models not found." 503,
      rawLeft := false, wavLeft := false }
  else if !o.readOk then
    let files := sttCleanup false true false false
    { response := SttOutcome.error "upload read failed" 500,
      rawLeft := files.1, wavLeft := files.2 }
  else
    match o.conv with
    | ConvOutcome.timeout =>
      let files := sttCleanup true true true o.wavCreatedOnFailure
      { response := SttOutcome.error "Audio processing timeout" 500,
        rawLeft := files.1, wavLeft := files.2 }
    | ConvOutcome.fail =>
      let files := sttCleanup true true true o.wavCreatedOnFailure
      { response := SttOutcome.error "Audio conversion failed" 500,
        rawLeft := files.1, wavLeft := files.2 }
    | ConvOutcome.ok =>
      if !o.wavOpenOk then
        let files := sttCleanup true true true true
        { response := SttOutcome.error "wave open failed" 500,
          rawLeft := files.1, wavLeft := files.2 }
      else if o.wavChannels ≠ 1 ∨ o.wavSampWidth ≠ 2 then
        let files := sttCleanup true true true true
        { response := SttOutcome.error "Invalid WAV format" 400,
          rawLeft := files.1, wavLeft := files.2 }
      else if !o.recogOk then
        let files := sttCleanup true true true true
        { response := SttOutcome.error "recognition failed" 500,
          rawLeft := files.1, wavLeft := files.2 }
      else
        let transcript := pyStrip o.rawText
        let files := sttCleanup true true true true
        { response := SttOutcome.result transcript
            (stt_detected_language language)
            (if transcript = "" then "no_speech" else "success"),
          rawLeft := files.1, wavLeft := files.2 }

/-! ## Claim C6 -/

/-- C6: on every request that reaches recognition (conversion succeeded,
the WAV header validates, recognition completes), the response is a
non-error transcript result whose transcript is the trimmed raw text, with
status "no_speech" exactly when the trimmed transcript is empty and
"success" otherwise. -/
theorem C6_stt_no_speech_vs_success (language : String) (o : SttOracle)
    (hr : o.readOk = true) (hc : o.conv = ConvOutcome.ok)
    (hw : o.wavOpenOk = true) (hch : o.wavChannels = 1)
    (hsw : o.wavSampWidth = 2) (hrec : o.recogOk = true) :
    (speech_to_text true language o).response
      = SttOutcome.result (pyStrip o.rawText) (stt_detected_language language)
          (if pyStrip o.rawText = "" then "no_speech" else "success") := by
  simp [speech_to_text, hr, hc, hw, hch, hsw, hrec, sttCleanup]

/-- Witness for C6: a whitespace-only final transcript yields an empty
transcript with status "no_speech", and a non-empty one yields
"success". -/
theorem C6_stt_no_speech_vs_success_witness :
    (speech_to_text true "en"
      { readOk := true, conv := ConvOutcome.ok, wavCreatedOnFailure := false,
        wavOpenOk := true, wavChannels := 1, wavSampWidth := 2,
        recogOk := true, rawText := "  " }).response
      = SttOutcome.result "" "en" "no_speech"
    ∧ (speech_to_text true "en"
      { readOk := true, conv := ConvOutcome.ok, wavCreatedOnFailure := false,
        wavOpenOk := true, wavChannels := 1, wavSampWidth := 2,
        recogOk := true, rawText := "hello" }).response
      = SttOutcome.result "hello" "en" "success" := by
  constructor
  · have := C6_stt_no_speech_vs_success "en"
      { readOk := true, conv := ConvOutcome.ok, wavCreatedOnFailure := false,
        wavOpenOk := true, wavChannels := 1, wavSampWidth := 2,
        recogOk := true, rawText := "  " } rfl rfl rfl rfl rfl rfl
    rw [this]; decide
  · have := C6_stt_no_speech_vs_success "en"
      { readOk := true, conv := ConvOutcome.ok, wavCreatedOnFailure := false,
        wavOpenOk := true, wavChannels := 1, wavSampWidth := 2,
        recogOk := true, rawText := "hello" } rfl rfl rfl rfl rfl rfl
    rw [this]; decide

/-! ## Claim C7 -/

/-- An STT request whose upload read raises an exception after the raw
temp file has been created but before `tmp_input_path` is assigned. -/
def sttReadFailureOracle : SttOracle :=
  { readOk := false, conv := ConvOutcome.ok, wavCreatedOnFailure := false,
    wavOpenOk := true, wavChannels := 1, wavSampWidth := 2,
    recogOk := true, rawText := "" }

/-- C7 fails on the code: when `file.read()` (or the temp-file write)
raises, the handler returns an error response but leaves the raw upload
temp file on disk, because the `finally` block only removes files whose
path variables were assigned and `tmp_input_path` is still `None` on that
path.  On every path with the upload successfully written, both files are
removed. -/
theorem C7_stt_raw_temp_leak_on_read_failure :
    (speech_to_text true "auto" sttReadFailureOracle).rawLeft = true
    ∧ (speech_to_text true "auto" sttReadFailureOracle).response
        = SttOutcome.error "upload read failed" 500 := by
  decide

/-! ## Claim C8 -/

/-- An STT request in which every external step succeeds and the final
transcript is "hello". -/
def sttSuccessOracle : SttOracle :=
  { readOk := true, conv := ConvOutcome.ok, wavCreatedOnFailure := false,
    wavOpenOk := true, wavChannels := 1, wavSampWidth := 2,
    recogOk := true, rawText := "hello" }

/-- Counterexample to C8 as stated: with the invalid language "fr" the
English model is indeed selected, but the `detected_language` reported in
the response is the caller's raw value "fr", which is neither "en" nor
"ar". -/
theorem C8_counterexample_invalid_language_echoed :
    (speech_to_text true "fr" sttSuccessOracle).response
      = SttOutcome.result "hello" "fr" "success"
    ∧ stt_model "fr" = VoskModel.en
    ∧ ("fr" : String) ≠ "en" ∧ ("fr" : String) ≠ "ar" := by
  decide

/-- C8 (amended): a language value outside {auto, en, ar} silently selects
the English model (only "ar" selects the Arabic model), but the
`detected_language` echoed in the result is the caller's raw value — it is
"en" for "auto" and lies in {en, ar} only when the request language is one
of auto, en, ar. -/
theorem C8_stt_invalid_language_fail_open (language : String) :
    (language ≠ "ar" → stt_model language = VoskModel.en)
    ∧ (stt_model language = VoskModel.ar ↔ language = "ar")
    ∧ stt_detected_language "auto" = "en"
    ∧ (language ≠ "auto" → stt_detected_language language = language)
    ∧ (language = "auto" ∨ language = "en" ∨ language = "ar" →
        stt_detected_language language = "en"
        ∨ stt_detected_language language = "ar") := by
  have hauto : stt_detected_language "auto" = "en" := rfl
  by_cases ha : language = "auto"
  · subst ha
    refine ⟨fun _ => rfl, by decide, rfl, fun h => absurd rfl h,
      fun _ => Or.inl rfl⟩
  · have hd : stt_detected_language language = language := by
      simp [stt_detected_language, ha]
    refine ⟨?_, ?_, rfl, fun _ => hd, ?_⟩
    · intro hne
      simp [stt_model, hd, hne]
    · constructor
      · intro hm
        by_contra hne
        simp [stt_model, hd, hne] at hm
      · intro hr
        subst hr
        decide
    · intro hcase
      rcases hcase with h | h | h
      · exact absurd h ha
      · exact Or.inl (by rw [hd, h])
      · exact Or.inr (by rw [hd, h])

/-- Witness for the amended C8 at the concrete invalid value "fr" and at
the three valid values. -/
theorem C8_stt_invalid_language_fail_open_witness :
    stt_model "fr" = VoskModel.en
    ∧ stt_detected_language "fr" = "fr"
    ∧ (stt_detected_language "en" = "en" ∨ stt_detected_language "en" = "ar")
    ∧ (stt_detected_language "ar" = "en"
        ∨ stt_detected_language "ar" = "ar") := by
  refine ⟨(C8_stt_invalid_language_fail_open "fr").1 (by decide),
    (C8_stt_invalid_language_fail_open "fr").2.2.2.1 (by decide),
    (C8_stt_invalid_language_fail_open "en").2.2.2.2 (Or.inr (Or.inl rfl)),
    (C8_stt_invalid_language_fail_open "ar").2.2.2.2 (Or.inr (Or.inr rfl))⟩

/-! ## Chat-history persistence (src/app.py lines 486-560).  The on-disk
JSON store is modelled as a total map from file names to parsed file
contents; JSON serialization is assumed faithful and filesystem read/write
errors (the generic `except` branches) are outside this model. -/

/-- The parsed contents of one `{name}_chat.json` file as written by
`save_chat_history` (src/app.py lines 519-528). -/
structure ChatHistoryFile where
  patient_name : String
  chat_history : List ChatMessage
  message_count : Nat
  last_updated : String
deriving DecidableEq, Repr

/-- The persistent store: file name → parsed contents, `none` when the
file does not exist. -/
def ChatStore : Type :=
  String → Option ChatHistoryFile

/-- File-name convention for transcripts: `f"{patient_name}_chat.json"`. -/
def chatFileName (patient_name : String) : String :=
  patient_name ++ "_chat.json"

/-- The success body returned by `save_chat_history`. -/
structure SaveResponse where
  success : Bool
  patient_name : String
  message_count : Nat
  file : String
deriving DecidableEq, Repr

/-- Embedding of `save_chat_history` (src/app.py lines 513-544): writes
`{patient_name, chat_history (role/text pairs in order), message_count,
last_updated}` to the per-patient transcript file and returns a success
body.  `now` is the value of `datetime.now().isoformat()`, an ISO-8601
timestamp. -/
def save_chat_history (store : ChatStore) (patient_name : String)
    (chat_history : List ChatMessage) (now : String) :
    ChatStore × SaveResponse :=
  let entry : ChatHistoryFile :=
    { patient_name := patient_name,
      chat_history :=
        chat_history.map (fun m => { role := m.role, text := m.text }),
      message_count := chat_history.length,
      last_updated := now }
  (fun k => if k = chatFileName patient_name then some entry else store k,
   { success := true, patient_name := patient_name,
     message_count := chat_history.length,
     file := chatFileName patient_name })

/-- The JSON body returned by `get_chat_history`; `last_updated` is absent
for the synthesized empty-history body. -/
structure GetHistoryBody where
  patient_name : String
  chat_history : List ChatMessage
  message_count : Nat
  last_updated : Option String
deriving DecidableEq, Repr

/-- Response of the load endpoint: a 200 body or an error with a status
code. -/
inductive GetHistoryResponse
  | ok (body : GetHistoryBody)
  | error (message : String) (code : Nat)
deriving DecidableEq, Repr

/-- Embedding of `get_chat_history` (src/app.py lines 490-511): a missing
transcript file yields a 200 body with the patient name, an empty turn
list and count 0; an existing file is returned as stored. -/
def get_chat_history (store : ChatStore) (patient_name : String) :
    GetHistoryResponse :=
  match store (chatFileName patient_name) with
  | none =>
    GetHistoryResponse.ok
      { patient_name := patient_name, chat_history := [],
        message_count := 0, last_updated := none }
  | some d =>
    GetHistoryResponse.ok
      { patient_name := d.patient_name, chat_history := d.chat_history,
        message_count := d.message_count,
        last_updated := some d.last_updated }

/-! ## Claim C9 -/

/-- C9: saving a transcript for a patient and then loading it for the same
name returns exactly the saved turn sequence (role, text, order), its
count, and the ISO-8601 timestamp recorded at save time. -/
theorem C9_save_load_roundtrip (store : ChatStore)
    (patient_name now : String) (msgs : List ChatMessage) :
    get_chat_history (save_chat_history store patient_name msgs now).1
        patient_name
      = GetHistoryResponse.ok
          { patient_name := patient_name, chat_history := msgs,
            message_count := msgs.length, last_updated := some now } := by
  have hmap : msgs.map (fun m => ChatMessage.mk m.role m.text) = msgs := by
    induction msgs with
    | nil => rfl
    | cons a t ih => simp [ih]
  simp [get_chat_history, save_chat_history, hmap]

/-! ## Claim C10 -/

/-- C10: loading the chat history of a patient with no saved transcript is
not an error: the endpoint returns a 200 body with the patient name, an
empty turn sequence and message_count 0. -/
theorem C10_missing_history_not_error (store : ChatStore)
    (patient_name : String)
    (h : store (chatFileName patient_name) = none) :
    get_chat_history store patient_name
      = GetHistoryResponse.ok
          { patient_name := patient_name, chat_history := [],
            message_count := 0, last_updated := none } := by
  simp [get_chat_history, h]

/-- Witness for C10: the empty store has no transcript for "alice". -/
theorem C10_missing_history_not_error_witness :
    get_chat_history (fun _ => none) "alice"
      = GetHistoryResponse.ok
          { patient_name := "alice", chat_history := [],
            message_count := 0, last_updated := none } :=
  C10_missing_history_not_error (fun _ => none) "alice" rfl
